import Mathlib

/- Verification development for the cloud-server-auth lambda
   (src/cloud-server-auth/main.go): request authorization, forwarding,
   and failure notification.  Go standard-library behaviour that the
   handler relies on (net/url parsing and reference resolution, the
   regexp matches for the two literal anchored patterns, url.Values,
   http.Header, encoding/json string quoting) is embedded shallowly,
   restricted to the URL shapes this lambda handles: user and fragment
   fields, host/port validation and non-trivial percent re-escaping are
   not modelled, and paths are kept in their escaped form throughout
   (for inputs without characters needing escaping this coincides with
   Go, where EscapedPath returns the raw path string whenever it is
   validly escaped).  String primitives are implemented over the
   character list of the string so that concrete instances evaluate
   inside the kernel. -/

set_option maxRecDepth 20000

namespace CloudServerAuth

/-- Embeds strings.HasPrefix (byte prefix test; on the ASCII strings in
scope the character list prefix test coincides). -/
def strStartsWith (s pre : String) : Bool :=
  List.isPrefixOf pre.toList s.toList

/-- Embeds strings.HasSuffix. -/
def strEndsWith (s suf : String) : Bool :=
  List.isSuffixOf suf.toList s.toList

/-- Character count of a string (equals the Go byte length on the
ASCII strings in scope). -/
def strLen (s : String) : Nat := s.toList.length

/-- Drops the first n characters of a string. -/
def strDrop (s : String) (n : Nat) : String := String.mk (s.toList.drop n)

/-- Takes the first n characters of a string. -/
def strTake (s : String) (n : Nat) : String := String.mk (s.toList.take n)

/-- ASCII lowercasing (strings.ToLower restricted to the ASCII scheme
strings in scope). -/
def lowerASCII (s : String) : String := String.mk (s.toList.map Char.toLower)

/-- Test used by Go net/url for rejecting URLs: an ASCII control byte
is any byte below 0x20 or equal to 0x7f (stringContainsCTLByte). -/
def containsCTL (s : String) : Bool :=
  s.toList.any (fun c => c.toNat < 0x20 || c.toNat == 0x7f)

/-- Splits a character list at the first occurrence of a character:
returns the part before and the part after (the whole list and [] when
the character does not occur).  Embeds strings.Cut for the single
character separators used here. -/
def cutChar (c : Char) : List Char → List Char × List Char
  | [] => ([], [])
  | x :: xs =>
    if x == c then ([], xs)
    else
      let r := cutChar c xs
      (x :: r.1, r.2)

/-- Embeds strings.Cut on a single character separator. -/
def cutStr (s : String) (c : Char) : String × String :=
  let r := cutChar c s.toList
  (String.mk r.1, String.mk r.2)

/-- Splits a character list on every occurrence of a character,
embedding strings.Split for the slash separator. -/
def splitOnChar (c : Char) : List Char → List (List Char)
  | [] => [[]]
  | x :: xs =>
    if x == c then [] :: splitOnChar c xs
    else
      match splitOnChar c xs with
      | [] => [[x]]
      | part :: parts => (x :: part) :: parts

/-- Shallow model of net/url URL.  The path field stores the ESCAPED
path (Go keeps Path unescaped plus RawPath, but EscapedPath returns the
original raw path string whenever that string is validly escaped, which
covers every path this lambda handles).  The rootless field models Go's
Opaque field (the rootless path after a scheme). -/
structure URL where
  scheme : String := ""
  rootless : String := ""
  host : String := ""
  path : String := ""
  rawQuery : String := ""
  deriving Repr, DecidableEq

/-- EscapedPath of the model: the stored path is already escaped. -/
def URL.escapedPath (u : URL) : String := u.path

/-- Result of the scheme scan of net/url getScheme. -/
inductive SchemeSplit where
  | schemeErr
  | noScheme
  | found (scheme rest : String)

/-- Embeds getScheme from net/url: scan for a colon preceded by a valid
scheme (alpha first, then alphanumeric, plus, minus or dot); a colon at
position zero is the missing-protocol-scheme error; any other character
means the string has no scheme. -/
def getSchemeAux (acc : List Char) : List Char → SchemeSplit
  | [] => .noScheme
  | c :: cs =>
    if c.isAlpha then getSchemeAux (acc ++ [c]) cs
    else if c.isDigit || c == '+' || c == '-' || c == '.' then
      if acc.isEmpty then .noScheme else getSchemeAux (acc ++ [c]) cs
    else if c == ':' then
      if acc.isEmpty then .schemeErr else .found (String.mk acc) (String.mk cs)
    else .noScheme

/-- Hexadecimal digit test (ishex in net/url). -/
def isHexDig (c : Char) : Bool :=
  decide (('0' ≤ c ∧ c ≤ '9') ∨ ('a' ≤ c ∧ c ≤ 'f') ∨ ('A' ≤ c ∧ c ≤ 'F'))

/-- Embeds the escape validation of net/url unescape: every percent
sign must be followed by two hexadecimal digits; on failure returns the
offending snippet (up to three characters) used in the error message. -/
def escapeError : List Char → Option String
  | [] => none
  | '%' :: a :: b :: rest =>
    if isHexDig a && isHexDig b then escapeError rest
    else some (String.mk ['%', a, b])
  | '%' :: rest => some (String.mk ('%' :: rest))
  | _ :: rest => escapeError rest

/-- Lowercase hexadecimal digit character for a value below 16. -/
def hexLower (n : Nat) : Char :=
  if n < 10 then Char.ofNat (48 + n) else Char.ofNat (87 + n)

/-- Two lowercase hexadecimal digits of a byte value. -/
def hex2 (n : Nat) : String :=
  String.mk [hexLower (n / 16 % 16), hexLower (n % 16)]

/-- Uppercase hexadecimal digit character for a value below 16
(upperhex table of net/url escape). -/
def hexUpper (n : Nat) : Char :=
  if n < 10 then Char.ofNat (48 + n) else Char.ofNat (55 + n)

/-- Two uppercase hexadecimal digits of a byte value. -/
def hex2Upper (n : Nat) : String :=
  String.mk [hexUpper (n / 16 % 16), hexUpper (n % 16)]

/-- Embeds strconv.Quote on one character, for the error strings of
net/url (url.Error quotes the URL with the percent-q verb). -/
def quoteGoChar (c : Char) : String :=
  if c = '"' then "\\\""
  else if c = '\\' then "\\\\"
  else if c = '\n' then "\\n"
  else if c = '\r' then "\\r"
  else if c = '\t' then "\\t"
  else if c.toNat = 0x07 then "\\a"
  else if c.toNat = 0x08 then "\\b"
  else if c.toNat = 0x0c then "\\f"
  else if c.toNat = 0x0b then "\\v"
  else if c.toNat < 0x20 || c.toNat == 0x7f then "\\x" ++ hex2 c.toNat
  else String.singleton c

/-- Embeds strconv.Quote for the ASCII strings that reach it here. -/
def quoteGo (s : String) : String :=
  "\"" ++ String.join (s.toList.map quoteGoChar) ++ "\""

/-- Error text of url.Error: parse "<url>": <inner>. -/
def urlErrMsg (raw innerMsg : String) : String :=
  "parse " ++ quoteGo raw ++ ": " ++ innerMsg

/-- Wraps an inner parse error into the url.Error text, as net/url
Parse does before returning. -/
def wrapURLErr (raw : String) : Except String URL → Except String URL
  | .error m => .error (urlErrMsg raw m)
  | .ok u => .ok u

/-- Embeds URL.setPath: validates the percent escapes of the path (the
path itself is stored in escaped form, see URL). -/
def setPathOn (u : URL) (p : String) : Except String URL :=
  match escapeError p.toList with
  | some snippet => Except.error ("invalid URL escape " ++ quoteGo snippet)
  | none => Except.ok { u with path := p }

/-- Host part of an authority: the substring after the last at sign
(userinfo is dropped; host validation is not modelled). -/
def hostOfAuthority (a : String) : String :=
  match a.toList.reverse.findIdx? (· == '@') with
  | none => a
  | some iRev => String.mk (a.toList.drop (a.toList.length - iRev))

/-- Embeds the body of net/url parse after scheme extraction: the
opaque (rootless) case, the colon-in-first-segment check for relative
paths, the authority case for strings starting with a double slash,
and the plain path case. -/
def parseAfterScheme (scheme rest rawQuery : String) : Except String URL :=
  if ¬ strStartsWith rest "/" then
    if scheme ≠ "" then Except.ok { scheme := scheme, rootless := rest, rawQuery := rawQuery }
    else if ((cutStr rest '/').1.toList.contains ':') then
      Except.error "first path segment in URL cannot contain colon"
    else setPathOn { scheme := scheme, rawQuery := rawQuery } rest
  else if (scheme ≠ "" ∨ ¬ strStartsWith rest "///") ∧ strStartsWith rest "//" then
    let afterSlashes := strDrop rest 2
    let split :=
      match afterSlashes.toList.findIdx? (· == '/') with
      | none => (afterSlashes, "")
      | some i => (strTake afterSlashes i, strDrop afterSlashes i)
    setPathOn { scheme := scheme, host := hostOfAuthority split.1, rawQuery := rawQuery } split.2
  else
    setPathOn { scheme := scheme, rawQuery := rawQuery } rest

/-- Embeds net/url Parse: cut the fragment, reject control characters,
split the query, extract the scheme (lowercased), then parse the rest;
errors are wrapped as url.Error texts. -/
def parseURL (rawURL : String) : Except String URL :=
  let u := (cutStr rawURL '#').1
  if containsCTL u then
    Except.error (urlErrMsg u "net/url: invalid control character in URL")
  else
    let (rest0, rawQuery) := cutStr u '?'
    match getSchemeAux [] rest0.toList with
    | .schemeErr => Except.error (urlErrMsg u "missing protocol scheme")
    | .noScheme => wrapURLErr u (parseAfterScheme "" rest0 rawQuery)
    | .found sch rest => wrapURLErr u (parseAfterScheme (lowerASCII sch) rest rawQuery)

/-- Position of the last slash of a string, if any. -/
def lastSlashPos (s : String) : Option Nat :=
  match s.toList.reverse.findIdx? (· == '/') with
  | none => none
  | some iRev => some (s.toList.length - 1 - iRev)

/-- Embeds the segment loop of net/url resolvePath: dst always starts
with a slash; a dot segment is dropped, a dot-dot segment erases back
to the previous slash (resetting to the start when none is left), and
any other segment is written, preceded by a slash except for the very
first write. -/
def resolveSegs : List String → String → Bool → String
  | [], dst, _ => dst
  | seg :: rest, dst, first =>
    if seg == "." then resolveSegs rest dst false
    else if seg == ".." then
      let str := strDrop dst 1
      match lastSlashPos str with
      | none => resolveSegs rest "/" true
      | some i => resolveSegs rest ("/" ++ strTake str i) false
    else
      resolveSegs rest (if first then dst ++ seg else dst ++ "/" ++ seg) false

/-- Embeds net/url resolvePath: merge the reference path onto the base
path (keeping the base up to its last slash for relative references),
remove dot segments, restore a trailing slash when the last segment was
a dot segment, and drop a doubled leading slash. -/
def resolvePath (base ref : String) : String :=
  let full :=
    if ref == "" then base
    else if ¬ strStartsWith ref "/" then
      (match lastSlashPos base with
       | none => ""
       | some i => strTake base (i + 1)) ++ ref
    else ref
  if full == "" then ""
  else
    let segs := (splitOnChar '/' full.toList).map String.mk
    let r := resolveSegs segs "/" true
    let r :=
      match segs.getLast? with
      | some seg => if seg == "." || seg == ".." then r ++ "/" else r
      | none => r
    if strStartsWith (strDrop r 1) "/" && decide (1 < strLen r) then strDrop r 1 else r

/-- Embeds URL.ResolveReference for the fields modelled here: an
absolute or authority-carrying reference keeps its own authority and
cleaned path; an opaque (rootless) reference is returned as is with the
authority cleared; otherwise the base authority is kept, an empty
reference path with an empty query inherits the base query, and the
paths are merged with resolvePath. -/
def resolveReference (u ref : URL) : URL :=
  let url0 := if ref.scheme = "" then { ref with scheme := u.scheme } else ref
  if ref.scheme ≠ "" ∨ ref.host ≠ "" then
    { url0 with path := resolvePath ref.path "" }
  else if ref.rootless ≠ "" then
    { url0 with host := "", path := "" }
  else
    let url1 :=
      if ref.path = "" ∧ ref.rawQuery = "" then { url0 with rawQuery := u.rawQuery } else url0
    { url1 with host := u.host, path := resolvePath u.path ref.path }

/-- The eight allowed path prefixes of isAuthorized, in source order. -/
def validPrefixes : List String :=
  ["api/installation", "/api/installation",
   "api/cluster_installation", "/api/cluster_installation",
   "api/webhooks", "/api/webhooks",
   "/api/webhook", "api/webhook"]

/-- The character class of the two anchored deletion-lock patterns. -/
def isAlphaNumASCII (c : Char) : Bool :=
  decide (('a' ≤ c ∧ c ≤ 'z') ∨ ('A' ≤ c ∧ c ≤ 'Z') ∨ ('0' ≤ c ∧ c ≤ '9'))

/-- Embeds regexp.MatchString for the two anchored literal patterns of
isAuthorized: a string matches the pattern for the given action (lock
or unlock) exactly when it is the fixed head, then twenty-six
alphanumeric characters, then the fixed deletion tail. -/
def matchesDeletionRegex (action s : String) : Bool :=
  let pre := "/api/security/installation/"
  let suf := "/deletion/" ++ action
  strLen s == strLen pre + 26 + strLen suf && strStartsWith s pre && strEndsWith s suf &&
    ((s.toList.drop (strLen pre)).take 26).all isAlphaNumASCII

/-- Embeds isAuthorized of main.go: accept when the escaped path starts
with one of the eight prefixes, else when it exactly matches one of the
two deletion lock and unlock patterns. -/
def isAuthorized (url : URL) : Bool :=
  validPrefixes.any (fun pre => strStartsWith url.escapedPath pre) ||
  matchesDeletionRegex "lock" url.escapedPath ||
  matchesDeletionRegex "unlock" url.escapedPath

/-- C1: every URL whose escaped path starts with one of the eight
literal case-sensitive prefixes is authorized, and the check is a plain
string-prefix test, so the path api/installation2 is also accepted. -/
theorem isAuthorized_of_validPrefixes (u : URL)
    (h : ∃ pre ∈ validPrefixes, strStartsWith u.escapedPath pre = true) :
    isAuthorized u = true ∧ isAuthorized { path := "api/installation2" } = true := by
  constructor
  · obtain ⟨pre, hmem, hpre⟩ := h
    have hany : validPrefixes.any (fun q => strStartsWith u.escapedPath q) = true :=
      List.any_eq_true.mpr ⟨pre, hmem, hpre⟩
    simp [isAuthorized, hany]
  · decide

/-- Witness for C1 at the concrete path /api/webhooks/foo. -/
theorem isAuthorized_of_validPrefixes_witness :
    isAuthorized { path := "/api/webhooks/foo" } = true ∧
    isAuthorized { path := "api/installation2" } = true :=
  isAuthorized_of_validPrefixes { path := "/api/webhooks/foo" }
    ⟨"/api/webhooks", by decide, by decide⟩

/-- C2: when the escaped path has none of the eight prefixes,
isAuthorized is exactly the disjunction of the two anchored deletion
lock and unlock patterns; the lock path with a twenty-six character
identifier is accepted, a twenty-five character identifier and the path
/api/other are rejected. -/
theorem isAuthorized_eq_deletionRegex_of_no_valid_prefix (u : URL)
    (h : validPrefixes.any (fun pre => strStartsWith u.escapedPath pre) = false) :
    isAuthorized u =
      (matchesDeletionRegex "lock" u.escapedPath ||
       matchesDeletionRegex "unlock" u.escapedPath) ∧
    isAuthorized { path := "/api/security/installation/AAAAAAAAAAAAAAAAAAAAAAAAAA/deletion/lock" } = true ∧
    isAuthorized { path := "/api/security/installation/AAAAAAAAAAAAAAAAAAAAAAAAA/deletion/lock" } = false ∧
    isAuthorized { path := "/api/other" } = false := by
  refine ⟨?_, by decide, by decide, by decide⟩
  simp [isAuthorized, h]

/-- Witness for C2 at the concrete path /api/other. -/
theorem isAuthorized_eq_deletionRegex_of_no_valid_prefix_witness :
    isAuthorized { path := "/api/other" } =
      (matchesDeletionRegex "lock" "/api/other" ||
       matchesDeletionRegex "unlock" "/api/other") ∧
    isAuthorized { path := "/api/security/installation/AAAAAAAAAAAAAAAAAAAAAAAAAA/deletion/lock" } = true ∧
    isAuthorized { path := "/api/security/installation/AAAAAAAAAAAAAAAAAAAAAAAAA/deletion/lock" } = false ∧
    isAuthorized { path := "/api/other" } = false :=
  isAuthorized_eq_deletionRegex_of_no_valid_prefix { path := "/api/other" } (by decide)

/-- Constant of main.go: the name of the cloud server variable. -/
def cloudServerEnv : String := "CLOUD_SERVER"

/-- Constant of main.go: the name of the webhook variable. -/
def mattermostWebhookEnv : String := "MATTERMOST_WEBHOOK"

/-- Constant of main.go: the icon of the webhook payload. -/
def mattermostWebhookIconURL : String :=
  "https://images2.minutemediacdn.com/image/upload/c_fill,g_auto,h_1248,w_2220/f_auto,q_auto,w_1100/v1555925520/shape/mentalfloss/800px-princesslineup.jpg"

/-- Process environment: the two variables the lambda reads. -/
structure Env where
  cloudServer : String
  mattermostWebhook : String

/-- Embeds events.APIGatewayProxyRequest restricted to the fields the
handler reads.  QueryStringParameters is a Go map from string to
string, modelled as the list of its entries (keys unique in any value
a Go map can take); MultiValueHeaders is nil or a header map. -/
structure APIGatewayProxyRequest where
  httpMethod : String := ""
  path : String := ""
  queryStringParameters : List (String × String) := []
  multiValueHeaders : Option (List (String × List String)) := none
  body : String := ""
  requestID : String := ""

/-- Embeds events.APIGatewayProxyResponse restricted to the fields the
handler sets. -/
structure APIGatewayProxyResponse where
  statusCode : Nat
  headers : List (String × String) := []
  body : String := ""
  deriving Repr, DecidableEq

/-- url.Values: a map from keys to value lists, as an association
list (keys unique by construction here). -/
abbrev Values := List (String × List String)

/-- Values held under a key (nil defaults to the empty list). -/
def valuesGet (vs : Values) (key : String) : List String :=
  (vs.lookup key).getD []

/-- Embeds url.Values.Add: appends the value to the list held under
the key, creating the entry when absent. -/
def valuesAdd (vs : Values) (key value : String) : Values :=
  if (vs.lookup key).isSome then
    vs.map (fun kv => if kv.1 = key then (kv.1, kv.2 ++ [value]) else kv)
  else vs ++ [(key, [value])]

/-- Embeds the query folding loop of validateCloudRequest: one
url.Values.Add per entry of QueryStringParameters. -/
def foldQueryParams (params : List (String × String)) : Values :=
  params.foldl (fun acc kv => valuesAdd acc kv.1 kv.2) []

/-- Insertion into a lexicographically sorted string list. -/
def insertSorted (x : String) : List String → List String
  | [] => [x]
  | y :: ys => if x ≤ y then x :: y :: ys else y :: insertSorted x ys

/-- Sorts strings lexicographically (the key sort of Values.Encode). -/
def sortStrings : List String → List String
  | [] => []
  | x :: xs => insertSorted x (sortStrings xs)

/-- Unreserved characters of the query encoding (shouldEscape with
encodeQueryComponent mode). -/
def isUnreservedQueryChar (c : Char) : Bool :=
  decide (('a' ≤ c ∧ c ≤ 'z') ∨ ('A' ≤ c ∧ c ≤ 'Z') ∨ ('0' ≤ c ∧ c ≤ '9') ∨
    c = '-' ∨ c = '_' ∨ c = '.' ∨ c = '~')

/-- Embeds url.QueryEscape on one character, restricted to single byte
characters (the query strings in scope are ASCII). -/
def queryEscapeChar (c : Char) : String :=
  if isUnreservedQueryChar c then String.singleton c
  else if c = ' ' then "+"
  else "%" ++ hex2Upper c.toNat

/-- Embeds url.QueryEscape for ASCII strings. -/
def queryEscape (s : String) : String :=
  String.join (s.toList.map queryEscapeChar)

/-- Embeds url.Values.Encode: keys sorted, each value emitted as
escaped key, equals sign, escaped value, all joined by ampersands. -/
def valuesEncode (vs : Values) : String :=
  let keys := sortStrings (vs.map Prod.fst)
  String.intercalate "&"
    (keys.foldr (fun k acc =>
      ((valuesGet vs k).map (fun v => queryEscape k ++ "=" ++ queryEscape v)) ++ acc) [])

/-- http.Header: a map from field names to value lists, as an
association list. -/
abbrev Header := List (String × List String)

/-- The token table of net/http and net/textproto (valid header field
and method bytes): alphanumerics and the fifteen listed marks. -/
def isTokenChar (c : Char) : Bool :=
  c.isAlphanum || c == '!' || c == '#' || c == '$' || c == '%' || c == '&' ||
  c.toNat == 0x27 || c == '*' || c == '+' || c == '-' || c == '.' || c == '^' ||
  c == '_' || c.toNat == 0x60 || c == '|' || c == '~'

/-- Case mapping loop of textproto.CanonicalMIMEHeaderKey: uppercase
at the start and after a hyphen, lowercase elsewhere. -/
def canonicalKeyChars : List Char → Bool → List Char
  | [], _ => []
  | c :: cs, upper =>
    (if upper then c.toUpper else c.toLower) :: canonicalKeyChars cs (c == '-')

/-- Embeds textproto.CanonicalMIMEHeaderKey: canonicalize only when
every character is a valid header field byte. -/
def canonicalMIMEHeaderKey (s : String) : String :=
  if s.toList.all isTokenChar then String.mk (canonicalKeyChars s.toList true) else s

/-- Embeds http.Header.Set: replaces the values held under the
canonicalized key with the single given value. -/
def headerSet (h : Header) (key value : String) : Header :=
  let ck := canonicalMIMEHeaderKey key
  if (h.lookup ck).isSome then
    h.map (fun kv => if kv.1 = ck then (kv.1, [value]) else kv)
  else h ++ [(ck, [value])]

/-- Outcome of one http.Client.Do call; for a response the outcome of
the subsequent io.ReadAll of its body is bundled in. -/
inductive DoResult where
  | success (statusCode : Nat) (bodyRead : Except String String)
  | transportErr (msg : String)

/-- Behaviour of the outside world during one invocation: what the
upstream call and the webhook post would return. -/
structure World where
  upstreamResult : DoResult
  webhookResult : DoResult

/-- Record of the outbound upstream request as built by the handler;
timeoutSeconds is the Timeout of the http.Client that issued it, zero
meaning no timeout. -/
structure OutboundRequest where
  method : String
  url : URL
  headers : Header
  body : String
  timeoutSeconds : Nat
  deriving Repr, DecidableEq

/-- Record of one webhook post: target URL, the payload fields of
webhookRequest, and the Timeout of the http.Client that issued it. -/
structure WebhookPost where
  url : String
  username : String
  text : String
  iconURL : String
  timeoutSeconds : Nat
  deriving Repr, DecidableEq

/-- Trace of the external HTTP calls one invocation attempted. -/
structure Trace where
  upstreamCalls : List OutboundRequest := []
  webhookCalls : List WebhookPost := []

/-- Embeds the string escaping of encoding/json Marshal with HTML
escaping on, as the handler uses plain json.Marshal. -/
def jsonEscapeChar (c : Char) : String :=
  if c = '"' then "\\\""
  else if c = '\\' then "\\\\"
  else if c = '<' then "\\u003c"
  else if c = '>' then "\\u003e"
  else if c = '&' then "\\u0026"
  else if c = '\n' then "\\n"
  else if c = '\r' then "\\r"
  else if c = '\t' then "\\t"
  else if c.toNat < 0x20 then "\\u00" ++ hex2 c.toNat
  else if c.toNat = 0x2028 then "\\u2028"
  else if c.toNat = 0x2029 then "\\u2029"
  else String.singleton c

/-- JSON string literal of encoding/json for an ASCII string. -/
def jsonQuote (s : String) : String :=
  "\"" ++ String.join (s.toList.map jsonEscapeChar) ++ "\""

/-- Body of every error response: json.Marshal of errorResponse. -/
def jsonErrorBody (msg : String) : String :=
  "\x7b\"error\":" ++ jsonQuote msg ++ "\x7d"

/-- The GET default of http.NewRequest for an empty method. -/
def methodOrGet (m : String) : String := if m = "" then "GET" else m

/-- Embeds the method validation of http.NewRequest: after the GET
default, every character must be in the token table. -/
def newRequestMethodOk (m : String) : Bool :=
  (methodOrGet m).toList.all isTokenChar

/-- Text of the failure notification message built by sendToWebhook
(both revisions build the same text). -/
def webhookMessage (request : APIGatewayProxyRequest) (errMsg : String) : String :=
  let fullMessage := "Cloud Auth Failure\n---\nError: " ++ errMsg ++ "\nMethod: " ++
    request.httpMethod ++ "\nPath: " ++ request.path ++ "\nRequest ID: " ++
    request.requestID ++ "\n"
  if request.body ≠ "" then fullMessage ++ "```\n" ++ request.body ++ "\n```" else fullMessage

/-- Embeds sendToWebhook of the original revision: error without any
post when the webhook variable is empty or when http.NewRequest cannot
parse its URL; otherwise post the payload with a client without a
timeout, treating a transport error or a non-200 status as an error.
Returns the error outcome and the posts attempted. -/
def sendToWebhook (env : Env) (w : World) (request : APIGatewayProxyRequest) (errMsg : String) :
    Option String × List WebhookPost :=
  if env.mattermostWebhook = "" then
    (some ("mattermost webhook URL var " ++ mattermostWebhookEnv ++ " not set"), [])
  else
    match parseURL env.mattermostWebhook with
    | .error m => (some m, [])
    | .ok _ =>
      let post : WebhookPost :=
        { url := env.mattermostWebhook, username := "Cloud Auth",
          text := webhookMessage request errMsg,
          iconURL := mattermostWebhookIconURL, timeoutSeconds := 0 }
      match w.webhookResult with
      | .transportErr m => (some m, [post])
      | .success code _ =>
        if code ≠ 200 then (some ("recieved status code " ++ toString code), [post])
        else (none, [post])

/-- Embeds processFailedAuth of the original revision: best-effort
webhook notification (its error only logged), then the JSON error
response returned together with the error value itself. -/
def processFailedAuth (env : Env) (w : World) (request : APIGatewayProxyRequest)
    (statusCode : Nat) (errMsg : String) :
    (APIGatewayProxyResponse × Option String) × Trace :=
  let wh := sendToWebhook env w request errMsg
  (({ statusCode := statusCode, headers := [], body := jsonErrorBody errMsg }, some errMsg),
   { upstreamCalls := [], webhookCalls := wh.2 })

/-- Embeds validateCloudRequest of the original revision: re-read and
check the cloud server variable, parse it, parse the request path,
fold the query parameters in, resolve against the base URL, authorize,
then build the outbound request (inbound multi-value headers copied
when non-nil, Accept-Encoding set to the empty value) and issue it
with a client without a timeout, passing the upstream response through
on success. -/
def validateCloudRequest (env : Env) (w : World) (request : APIGatewayProxyRequest) :
    (APIGatewayProxyResponse × Option String) × Trace :=
  if env.cloudServer = "" then
    processFailedAuth env w request 500 ("cloud server URL var " ++ cloudServerEnv ++ " not set")
  else
    match parseURL env.cloudServer with
    | .error m =>
      processFailedAuth env w request 500
        ("cloud server URL " ++ env.cloudServer ++ " is invalid: " ++ m)
    | .ok parsedCloudURL =>
      match parseURL request.path with
      | .error m => processFailedAuth env w request 400 m
      | .ok parsedPath0 =>
        let parsedPath : URL :=
          { parsedPath0 with
            rawQuery := valuesEncode (foldQueryParams request.queryStringParameters) }
        let final := resolveReference parsedCloudURL parsedPath
        if isAuthorized final = false then
          processFailedAuth env w request 401 (final.escapedPath ++ " is not an authorized path")
        else if newRequestMethodOk request.httpMethod = false then
          processFailedAuth env w request 500
            ("net/http: invalid method " ++ quoteGo request.httpMethod)
        else
          let hdr0 : Header :=
            match request.multiValueHeaders with
            | some h => h
            | none => []
          let outbound : OutboundRequest :=
            { method := methodOrGet request.httpMethod, url := final,
              headers := headerSet hdr0 "Accept-Encoding" "",
              body := request.body, timeoutSeconds := 0 }
          match w.upstreamResult with
          | .transportErr m =>
            let r := processFailedAuth env w request 500
              ("failed when making request to cloud server: " ++ m)
            (r.1, { r.2 with upstreamCalls := [outbound] })
          | .success code bodyRead =>
            match bodyRead with
            | .error m =>
              let r := processFailedAuth env w request 500
                ("failed to read cloud server response body: " ++ m)
              (r.1, { r.2 with upstreamCalls := [outbound] })
            | .ok respBody =>
              (({ statusCode := code,
                  headers := [("Content-Type", "application/json")],
                  body := respBody }, none),
               { upstreamCalls := [outbound], webhookCalls := [] })

/-- Embeds getEnv of the original revision: log.Fatalf, modelled as
none, when the variable is empty. -/
def getEnv (value : String) : Option String :=
  if value = "" then none else some value

/-- Embeds the startup reads of the init function of the original
revision: both variables fetched through getEnv, so startup is fatal
exactly when one of them is empty. -/
def initStartup (env : Env) : Option (String × String) :=
  match getEnv env.cloudServer, getEnv env.mattermostWebhook with
  | some c, some m => some (c, m)
  | _, _ => none

namespace Refactored

/-- Config of the refactored revision of main.go. -/
structure Config where
  cloudServerURL : String
  mattermostWebhookURL : String

/-- Embeds loadConfig of the refactored revision: error exactly when
one of the two variables is empty. -/
def loadConfig (env : Env) : Except String Config :=
  if env.cloudServer = "" then
    Except.error ("environment variable " ++ cloudServerEnv ++ " is not set")
  else if env.mattermostWebhook = "" then
    Except.error ("environment variable " ++ mattermostWebhookEnv ++ " is not set")
  else
    Except.ok { cloudServerURL := env.cloudServer, mattermostWebhookURL := env.mattermostWebhook }

/-- Timeout of the upstream client of the refactored revision, in
seconds (http.Client with Timeout of ten seconds). -/
def upstreamTimeoutSeconds : Nat := 10

/-- Timeout of the webhook client of the refactored revision, in
seconds (http.Client with Timeout of five seconds). -/
def webhookTimeoutSeconds : Nat := 5

/-- Embeds sendToWebhook of the refactored revision: no emptiness
check (loadConfig guarantees it) and a five second client timeout. -/
def sendToWebhook (config : Config) (w : World) (request : APIGatewayProxyRequest)
    (errMsg : String) : Option String × List WebhookPost :=
  match parseURL config.mattermostWebhookURL with
  | .error m => (some m, [])
  | .ok _ =>
    let post : WebhookPost :=
      { url := config.mattermostWebhookURL, username := "Cloud Auth",
        text := webhookMessage request errMsg,
        iconURL := mattermostWebhookIconURL, timeoutSeconds := webhookTimeoutSeconds }
    match w.webhookResult with
    | .transportErr m => (some m, [post])
    | .success code _ =>
      if code ≠ 200 then (some ("received status code " ++ toString code), [post])
      else (none, [post])

/-- Embeds processFailedAuth of the refactored revision. -/
def processFailedAuth (config : Config) (w : World) (request : APIGatewayProxyRequest)
    (statusCode : Nat) (errMsg : String) :
    (APIGatewayProxyResponse × Option String) × Trace :=
  let wh := sendToWebhook config w request errMsg
  (({ statusCode := statusCode, headers := [], body := jsonErrorBody errMsg }, some errMsg),
   { upstreamCalls := [], webhookCalls := wh.2 })

/-- Embeds validateCloudRequest of the refactored revision: the
configuration comes in as a parameter, the inbound headers are NOT
copied onto the outbound request, and the upstream client carries a
ten second timeout. -/
def validateCloudRequest (config : Config) (w : World) (request : APIGatewayProxyRequest) :
    (APIGatewayProxyResponse × Option String) × Trace :=
  match parseURL config.cloudServerURL with
  | .error m =>
    processFailedAuth config w request 500
      ("cloud server URL " ++ config.cloudServerURL ++ " is invalid: " ++ m)
  | .ok parsedCloudURL =>
    match parseURL request.path with
    | .error m => processFailedAuth config w request 400 m
    | .ok parsedPath0 =>
      let parsedPath : URL :=
        { parsedPath0 with
          rawQuery := valuesEncode (foldQueryParams request.queryStringParameters) }
      let final := resolveReference parsedCloudURL parsedPath
      if isAuthorized final = false then
        processFailedAuth config w request 401 (final.escapedPath ++ " is not an authorized path")
      else if newRequestMethodOk request.httpMethod = false then
        processFailedAuth config w request 500
          ("net/http: invalid method " ++ quoteGo request.httpMethod)
      else
        let outbound : OutboundRequest :=
          { method := methodOrGet request.httpMethod, url := final,
            headers := headerSet [] "Accept-Encoding" "",
            body := request.body, timeoutSeconds := upstreamTimeoutSeconds }
        match w.upstreamResult with
        | .transportErr m =>
          let r := processFailedAuth config w request 500
            ("failed when making request to cloud server: " ++ m)
          (r.1, { r.2 with upstreamCalls := [outbound] })
        | .success code bodyRead =>
          match bodyRead with
          | .error m =>
            let r := processFailedAuth config w request 500
              ("failed to read cloud server response body: " ++ m)
            (r.1, { r.2 with upstreamCalls := [outbound] })
          | .ok respBody =>
            (({ statusCode := code,
                headers := [("Content-Type", "application/json")],
                body := respBody }, none),
             { upstreamCalls := [outbound], webhookCalls := [] })

end Refactored

/-- The reference URL the handler resolves: the parsed request path
with the re-encoded query folded in. -/
def refWithQuery (p : URL) (request : APIGatewayProxyRequest) : URL :=
  { p with rawQuery := valuesEncode (foldQueryParams request.queryStringParameters) }

theorem vcr_cfg_empty (env : Env) (w : World) (request : APIGatewayProxyRequest)
    (hcs : env.cloudServer = "") :
    validateCloudRequest env w request =
      processFailedAuth env w request 500
        ("cloud server URL var " ++ cloudServerEnv ++ " not set") := by
  unfold validateCloudRequest
  rw [if_pos hcs]

theorem vcr_cfg_invalid (env : Env) (w : World) (request : APIGatewayProxyRequest)
    (m : String) (hcs : env.cloudServer ≠ "")
    (hbase : parseURL env.cloudServer = .error m) :
    validateCloudRequest env w request =
      processFailedAuth env w request 500
        ("cloud server URL " ++ env.cloudServer ++ " is invalid: " ++ m) := by
  unfold validateCloudRequest
  rw [if_neg hcs, hbase]

theorem vcr_path_invalid (env : Env) (w : World) (request : APIGatewayProxyRequest)
    (base : URL) (m : String) (hcs : env.cloudServer ≠ "")
    (hbase : parseURL env.cloudServer = .ok base)
    (hpath : parseURL request.path = .error m) :
    validateCloudRequest env w request = processFailedAuth env w request 400 m := by
  unfold validateCloudRequest
  rw [if_neg hcs, hbase, hpath]

theorem vcr_unauthorized (env : Env) (w : World) (request : APIGatewayProxyRequest)
    (base p : URL) (hcs : env.cloudServer ≠ "")
    (hbase : parseURL env.cloudServer = .ok base)
    (hpath : parseURL request.path = .ok p)
    (hauth : isAuthorized (resolveReference base (refWithQuery p request)) = false) :
    validateCloudRequest env w request =
      processFailedAuth env w request 401
        ((resolveReference base (refWithQuery p request)).escapedPath ++
          " is not an authorized path") := by
  unfold validateCloudRequest
  rw [if_neg hcs, hbase, hpath]
  simp only [refWithQuery] at hauth
  simp only [hauth, if_pos]
  rfl

theorem vcr_bad_method (env : Env) (w : World) (request : APIGatewayProxyRequest)
    (base p : URL) (hcs : env.cloudServer ≠ "")
    (hbase : parseURL env.cloudServer = .ok base)
    (hpath : parseURL request.path = .ok p)
    (hauth : isAuthorized (resolveReference base (refWithQuery p request)) = true)
    (hm : newRequestMethodOk request.httpMethod = false) :
    validateCloudRequest env w request =
      processFailedAuth env w request 500
        ("net/http: invalid method " ++ quoteGo request.httpMethod) := by
  unfold validateCloudRequest
  rw [if_neg hcs, hbase, hpath]
  simp only [refWithQuery] at hauth
  simp only [hauth, hm, if_pos, Bool.true_eq_false, if_neg, not_false_eq_true]

/-- The outbound request of the original revision, for a request that
reaches the upstream call. -/
def outboundOf (request : APIGatewayProxyRequest) (final : URL) : OutboundRequest :=
  { method := methodOrGet request.httpMethod, url := final,
    headers :=
      headerSet (match request.multiValueHeaders with | some h => h | none => [])
        "Accept-Encoding" "",
    body := request.body, timeoutSeconds := 0 }

theorem vcr_transport_err (env : Env) (w : World) (request : APIGatewayProxyRequest)
    (base p : URL) (m : String) (hcs : env.cloudServer ≠ "")
    (hbase : parseURL env.cloudServer = .ok base)
    (hpath : parseURL request.path = .ok p)
    (hauth : isAuthorized (resolveReference base (refWithQuery p request)) = true)
    (hm : newRequestMethodOk request.httpMethod = true)
    (hup : w.upstreamResult = .transportErr m) :
    validateCloudRequest env w request =
      ((processFailedAuth env w request 500
          ("failed when making request to cloud server: " ++ m)).1,
       { upstreamCalls := [outboundOf request (resolveReference base (refWithQuery p request))],
         webhookCalls :=
           (processFailedAuth env w request 500
             ("failed when making request to cloud server: " ++ m)).2.webhookCalls }) := by
  unfold validateCloudRequest
  rw [if_neg hcs, hbase, hpath]
  simp only [refWithQuery] at hauth ⊢
  simp only [hauth, hm, hup, Bool.true_eq_false, if_neg, not_false_eq_true, outboundOf]

theorem vcr_read_err (env : Env) (w : World) (request : APIGatewayProxyRequest)
    (base p : URL) (code : Nat) (m : String) (hcs : env.cloudServer ≠ "")
    (hbase : parseURL env.cloudServer = .ok base)
    (hpath : parseURL request.path = .ok p)
    (hauth : isAuthorized (resolveReference base (refWithQuery p request)) = true)
    (hm : newRequestMethodOk request.httpMethod = true)
    (hup : w.upstreamResult = .success code (.error m)) :
    validateCloudRequest env w request =
      ((processFailedAuth env w request 500
          ("failed to read cloud server response body: " ++ m)).1,
       { upstreamCalls := [outboundOf request (resolveReference base (refWithQuery p request))],
         webhookCalls :=
           (processFailedAuth env w request 500
             ("failed to read cloud server response body: " ++ m)).2.webhookCalls }) := by
  unfold validateCloudRequest
  rw [if_neg hcs, hbase, hpath]
  simp only [refWithQuery] at hauth ⊢
  simp only [hauth, hm, hup, Bool.true_eq_false, if_neg, not_false_eq_true, outboundOf]

theorem vcr_success (env : Env) (w : World) (request : APIGatewayProxyRequest)
    (base p : URL) (code : Nat) (respBody : String) (hcs : env.cloudServer ≠ "")
    (hbase : parseURL env.cloudServer = .ok base)
    (hpath : parseURL request.path = .ok p)
    (hauth : isAuthorized (resolveReference base (refWithQuery p request)) = true)
    (hm : newRequestMethodOk request.httpMethod = true)
    (hup : w.upstreamResult = .success code (.ok respBody)) :
    validateCloudRequest env w request =
      (({ statusCode := code, headers := [("Content-Type", "application/json")],
          body := respBody }, none),
       { upstreamCalls := [outboundOf request (resolveReference base (refWithQuery p request))],
         webhookCalls := [] }) := by
  unfold validateCloudRequest
  rw [if_neg hcs, hbase, hpath]
  simp only [refWithQuery] at hauth ⊢
  simp only [hauth, hm, hup, Bool.true_eq_false, if_neg, not_false_eq_true, outboundOf]

theorem sendToWebhook_posts_length (env : Env) (w : World)
    (request : APIGatewayProxyRequest) (errMsg : String) (wu : URL)
    (hwh : env.mattermostWebhook ≠ "")
    (hwu : parseURL env.mattermostWebhook = .ok wu) :
    (sendToWebhook env w request errMsg).2.length = 1 := by
  unfold sendToWebhook
  rw [if_neg hwh, hwu]
  cases w.webhookResult with
  | transportErr m => rfl
  | success code bodyRead =>
    by_cases h : code ≠ 200
    · simp only [if_pos h, List.length_cons, List.length_nil]
    · simp only [if_neg h, List.length_cons, List.length_nil]

theorem lookup_map_adjust (f : List String → List String) (l : Values) (ck : String) :
    (l.map (fun kv => if kv.1 = ck then (kv.1, f kv.2) else kv)).lookup ck =
      (l.lookup ck).map f := by
  induction l with
  | nil => rfl
  | cons kv rest ih =>
    obtain ⟨k1, v1⟩ := kv
    by_cases h : k1 = ck
    · subst h
      rw [List.map_cons]
      have hred : (if (k1, v1).1 = k1 then ((k1, v1).1, f (k1, v1).2) else (k1, v1)) = (k1, f v1) := by
        simp
      rw [hred]
      simp [List.lookup]
    · have hbeq : (ck == k1) = false := beq_eq_false_iff_ne.mpr (Ne.symm h)
      rw [List.map_cons]
      have hred : (if (k1, v1).1 = ck then ((k1, v1).1, f (k1, v1).2) else (k1, v1)) = (k1, v1) := by
        simp [h]
      rw [hred]
      simp [List.lookup, hbeq, ih]

theorem lookup_map_adjust_ne (f : List String → List String) (l : Values) (ck k : String)
    (hk : k ≠ ck) :
    (l.map (fun kv => if kv.1 = ck then (kv.1, f kv.2) else kv)).lookup k = l.lookup k := by
  induction l with
  | nil => rfl
  | cons kv rest ih =>
    obtain ⟨k1, v1⟩ := kv
    by_cases h : k1 = ck
    · subst h
      have hbeq : (k == k1) = false := beq_eq_false_iff_ne.mpr hk
      rw [List.map_cons]
      have hred : (if (k1, v1).1 = k1 then ((k1, v1).1, f (k1, v1).2) else (k1, v1)) = (k1, f v1) := by
        simp
      rw [hred]
      simp [List.lookup, hbeq, ih]
    · rw [List.map_cons]
      have hred : (if (k1, v1).1 = ck then ((k1, v1).1, f (k1, v1).2) else (k1, v1)) = (k1, v1) := by
        simp [h]
      rw [hred]
      simp [List.lookup, ih]

theorem lookup_append_missing (l : Values) (k : String) (v : List String)
    (hnone : l.lookup k = none) : (l ++ [(k, v)]).lookup k = some v := by
  induction l with
  | nil => simp [List.lookup]
  | cons kv rest ih =>
    obtain ⟨k1, v1⟩ := kv
    by_cases h : k1 = k
    · subst h
      simp [List.lookup] at hnone
    · have hbeq : (k == k1) = false := beq_eq_false_iff_ne.mpr (fun hkk => h hkk.symm)
      simp only [List.lookup, hbeq] at hnone
      simp only [List.cons_append, List.lookup, hbeq]
      exact ih hnone

theorem lookup_append_single_ne (l : Values) (ck k : String) (v : List String)
    (hk : k ≠ ck) : (l ++ [(ck, v)]).lookup k = l.lookup k := by
  induction l with
  | nil =>
    have hbeq : (k == ck) = false := beq_eq_false_iff_ne.mpr hk
    simp [List.lookup, hbeq]
  | cons kv rest ih =>
    obtain ⟨k1, v1⟩ := kv
    by_cases h : k1 = k
    · subst h
      simp [List.lookup]
    · have hbeq : (k == k1) = false := beq_eq_false_iff_ne.mpr (fun hkk => h hkk.symm)
      simp [List.lookup, hbeq, ih]

theorem headerSet_lookup_self (h : Header) (key value : String)
    (hck : canonicalMIMEHeaderKey key = key) :
    (headerSet h key value).lookup key = some [value] := by
  unfold headerSet
  rw [hck]
  by_cases hs : (h.lookup key).isSome = true
  · rw [if_pos hs, lookup_map_adjust (fun _ => [value]) h key]
    obtain ⟨x, hx⟩ := Option.isSome_iff_exists.mp hs
    rw [hx]
    rfl
  · rw [if_neg hs]
    exact lookup_append_missing h key [value]
      (Option.not_isSome_iff_eq_none.mp (by simpa using hs))

theorem headerSet_lookup_ne (h : Header) (key value k : String)
    (hk : k ≠ canonicalMIMEHeaderKey key) :
    (headerSet h key value).lookup k = h.lookup k := by
  unfold headerSet
  by_cases hs : (h.lookup (canonicalMIMEHeaderKey key)).isSome = true
  · rw [if_pos hs]
    exact lookup_map_adjust_ne (fun _ => [value]) h (canonicalMIMEHeaderKey key) k hk
  · rw [if_neg hs]
    exact lookup_append_single_ne h (canonicalMIMEHeaderKey key) k [value] hk

theorem valuesAdd_get_self (vs : Values) (k v : String) :
    valuesGet (valuesAdd vs k v) k = valuesGet vs k ++ [v] := by
  unfold valuesAdd valuesGet
  by_cases hs : (vs.lookup k).isSome = true
  · rw [if_pos hs, lookup_map_adjust (fun xs => xs ++ [v]) vs k]
    obtain ⟨x, hx⟩ := Option.isSome_iff_exists.mp hs
    rw [hx]
    rfl
  · rw [if_neg hs]
    have hnone : vs.lookup k = none := Option.not_isSome_iff_eq_none.mp (by simpa using hs)
    rw [lookup_append_missing vs k [v] hnone, hnone]
    rfl

theorem valuesAdd_get_ne (vs : Values) (k v k2 : String) (hk : k2 ≠ k) :
    valuesGet (valuesAdd vs k v) k2 = valuesGet vs k2 := by
  unfold valuesAdd valuesGet
  by_cases hs : (vs.lookup k).isSome = true
  · rw [if_pos hs, lookup_map_adjust_ne (fun xs => xs ++ [v]) vs k k2 hk]
  · rw [if_neg hs, lookup_append_single_ne vs k k2 [v] hk]

theorem vcr_classify (env : Env) (w : World) (request : APIGatewayProxyRequest) :
    (∃ s m, s ∈ ([400, 401, 500] : List Nat) ∧
      (validateCloudRequest env w request).1 =
        ({ statusCode := s, headers := [], body := jsonErrorBody m }, some m)) ∨
    (∃ code respBody, w.upstreamResult = .success code (.ok respBody) ∧
      (validateCloudRequest env w request).1 =
        ({ statusCode := code, headers := [("Content-Type", "application/json")],
           body := respBody }, none)) := by
  by_cases hcs : env.cloudServer = ""
  · exact Or.inl ⟨500, "cloud server URL var " ++ cloudServerEnv ++ " not set",
      by simp, by rw [vcr_cfg_empty env w request hcs]; rfl⟩
  · cases hbase : parseURL env.cloudServer with
    | error m =>
      exact Or.inl ⟨500, "cloud server URL " ++ env.cloudServer ++ " is invalid: " ++ m,
        by simp, by rw [vcr_cfg_invalid env w request m hcs hbase]; rfl⟩
    | ok base =>
      cases hpath : parseURL request.path with
      | error m =>
        exact Or.inl ⟨400, m, by simp, by rw [vcr_path_invalid env w request base m hcs hbase hpath]; rfl⟩
      | ok p =>
        cases hauth : isAuthorized (resolveReference base (refWithQuery p request)) with
        | false =>
          exact Or.inl ⟨401,
            (resolveReference base (refWithQuery p request)).escapedPath ++
              " is not an authorized path",
            by simp, by rw [vcr_unauthorized env w request base p hcs hbase hpath hauth]; rfl⟩
        | true =>
          cases hm : newRequestMethodOk request.httpMethod with
          | false =>
            exact Or.inl ⟨500, "net/http: invalid method " ++ quoteGo request.httpMethod,
              by simp, by rw [vcr_bad_method env w request base p hcs hbase hpath hauth hm]; rfl⟩
          | true =>
            cases hup : w.upstreamResult with
            | transportErr m =>
              exact Or.inl ⟨500, "failed when making request to cloud server: " ++ m,
                by simp,
                by rw [vcr_transport_err env w request base p m hcs hbase hpath hauth hm hup]; rfl⟩
            | success code br =>
              cases br with
              | error m =>
                exact Or.inl ⟨500, "failed to read cloud server response body: " ++ m,
                  by simp,
                  by rw [vcr_read_err env w request base p code m hcs hbase hpath hauth hm hup]; rfl⟩
              | ok respBody =>
                exact Or.inr ⟨code, respBody, rfl,
                  by rw [vcr_success env w request base p code respBody hcs hbase hpath hauth hm hup]⟩

/-- C3: for every request whose resolved path is not authorized, given
a configuration whose two variables are set and parseable, the handler
returns a response with status code exactly 401, attempts no HTTP call
to the upstream server, and attempts exactly one failure notification
post to the webhook. -/
theorem unauthorized_request_rejected_401
    (env : Env) (w : World) (request : APIGatewayProxyRequest) (base p wu : URL)
    (hcs : env.cloudServer ≠ "")
    (hbase : parseURL env.cloudServer = .ok base)
    (hpath : parseURL request.path = .ok p)
    (hauth : isAuthorized (resolveReference base (refWithQuery p request)) = false)
    (hwh : env.mattermostWebhook ≠ "")
    (hwu : parseURL env.mattermostWebhook = .ok wu) :
    (validateCloudRequest env w request).1.1.statusCode = 401 ∧
    (validateCloudRequest env w request).2.upstreamCalls = [] ∧
    (validateCloudRequest env w request).2.webhookCalls.length = 1 := by
  rw [vcr_unauthorized env w request base p hcs hbase hpath hauth]
  exact ⟨rfl, rfl, sendToWebhook_posts_length env w request _ wu hwh hwu⟩

/-- Witness for C3 at the concrete unauthorized path /api/other. -/
theorem unauthorized_request_rejected_401_witness :
    (validateCloudRequest
        { cloudServer := "https://cloud.example.com",
          mattermostWebhook := "https://hooks.example.com/abc" }
        { upstreamResult := .success 200 (.ok ""), webhookResult := .success 200 (.ok "") }
        { httpMethod := "GET", path := "/api/other" }).1.1.statusCode = 401 ∧
    (validateCloudRequest
        { cloudServer := "https://cloud.example.com",
          mattermostWebhook := "https://hooks.example.com/abc" }
        { upstreamResult := .success 200 (.ok ""), webhookResult := .success 200 (.ok "") }
        { httpMethod := "GET", path := "/api/other" }).2.upstreamCalls = [] ∧
    (validateCloudRequest
        { cloudServer := "https://cloud.example.com",
          mattermostWebhook := "https://hooks.example.com/abc" }
        { upstreamResult := .success 200 (.ok ""), webhookResult := .success 200 (.ok "") }
        { httpMethod := "GET", path := "/api/other" }).2.webhookCalls.length = 1 :=
  unauthorized_request_rejected_401 _ _ _
    { scheme := "https", host := "cloud.example.com" }
    { path := "/api/other" }
    { scheme := "https", host := "hooks.example.com", path := "/abc" }
    (by decide) (by rfl) (by rfl) (by decide) (by decide) (by rfl)

/-- C4: for every authorized request (parseable configuration and
path, valid method) whose upstream call succeeds and whose response
body is fully readable, the handler returns the upstream status code
unchanged and the upstream body byte for byte unchanged, with a
Content-Type application/json header and no error. -/
theorem authorized_success_passes_upstream_through
    (env : Env) (w : World) (request : APIGatewayProxyRequest) (base p : URL)
    (code : Nat) (respBody : String)
    (hcs : env.cloudServer ≠ "")
    (hbase : parseURL env.cloudServer = .ok base)
    (hpath : parseURL request.path = .ok p)
    (hauth : isAuthorized (resolveReference base (refWithQuery p request)) = true)
    (hm : newRequestMethodOk request.httpMethod = true)
    (hup : w.upstreamResult = .success code (.ok respBody)) :
    (validateCloudRequest env w request).1 =
      ({ statusCode := code, headers := [("Content-Type", "application/json")],
         body := respBody }, none) := by
  rw [vcr_success env w request base p code respBody hcs hbase hpath hauth hm hup]

/-- Witness for C4: an upstream 503 with a small JSON body passes
through as a 503 with the same body. -/
theorem authorized_success_passes_upstream_through_witness :
    (validateCloudRequest
        { cloudServer := "https://cloud.example.com",
          mattermostWebhook := "https://hooks.example.com/abc" }
        { upstreamResult := .success 503 (.ok "\x7b\"x\":1\x7d"),
          webhookResult := .success 200 (.ok "") }
        { httpMethod := "POST", path := "/api/installation/abc", body := "b" }).1 =
      ({ statusCode := 503, headers := [("Content-Type", "application/json")],
         body := "\x7b\"x\":1\x7d" }, none) :=
  authorized_success_passes_upstream_through _ _ _
    { scheme := "https", host := "cloud.example.com" }
    { path := "/api/installation/abc" } 503 "\x7b\"x\":1\x7d"
    (by decide) (by rfl) (by rfl) (by decide) (by decide) (by rfl)

/-- C6: failing invocations map the error class to the status code:
400 when the inbound path does not parse, 401 when the resolved path
is unauthorized, 500 for configuration errors (variable empty or URL
unparsable), transport errors and response body read errors; every
error response body is the JSON error object for its message; and a
successful invocation passes the upstream status through, so it
returns 200 exactly when the upstream returned 200, with the upstream
body. -/
theorem response_codes_by_error_class
    (env : Env) (w : World) (request : APIGatewayProxyRequest) :
    (∀ m, (validateCloudRequest env w request).1.2 = some m →
        (validateCloudRequest env w request).1.1.body = jsonErrorBody m ∧
        (validateCloudRequest env w request).1.1.statusCode ∈ ([400, 401, 500] : List Nat)) ∧
    (env.cloudServer = "" → (validateCloudRequest env w request).1.1.statusCode = 500) ∧
    (∀ m, env.cloudServer ≠ "" → parseURL env.cloudServer = .error m →
        (validateCloudRequest env w request).1.1.statusCode = 500) ∧
    (∀ base m, env.cloudServer ≠ "" → parseURL env.cloudServer = .ok base →
        parseURL request.path = .error m →
        (validateCloudRequest env w request).1.1.statusCode = 400) ∧
    (∀ base p, env.cloudServer ≠ "" → parseURL env.cloudServer = .ok base →
        parseURL request.path = .ok p →
        isAuthorized (resolveReference base (refWithQuery p request)) = false →
        (validateCloudRequest env w request).1.1.statusCode = 401) ∧
    (∀ base p m, env.cloudServer ≠ "" → parseURL env.cloudServer = .ok base →
        parseURL request.path = .ok p →
        isAuthorized (resolveReference base (refWithQuery p request)) = true →
        newRequestMethodOk request.httpMethod = true →
        w.upstreamResult = .transportErr m →
        (validateCloudRequest env w request).1.1.statusCode = 500) ∧
    (∀ base p code m, env.cloudServer ≠ "" → parseURL env.cloudServer = .ok base →
        parseURL request.path = .ok p →
        isAuthorized (resolveReference base (refWithQuery p request)) = true →
        newRequestMethodOk request.httpMethod = true →
        w.upstreamResult = .success code (.error m) →
        (validateCloudRequest env w request).1.1.statusCode = 500) ∧
    (∀ base p code respBody, env.cloudServer ≠ "" → parseURL env.cloudServer = .ok base →
        parseURL request.path = .ok p →
        isAuthorized (resolveReference base (refWithQuery p request)) = true →
        newRequestMethodOk request.httpMethod = true →
        w.upstreamResult = .success code (.ok respBody) →
        (validateCloudRequest env w request).1.1.statusCode = code ∧
        (validateCloudRequest env w request).1.1.body = respBody ∧
        ((validateCloudRequest env w request).1.1.statusCode = 200 ↔ code = 200)) := by
  refine ⟨?_, ?_, ?_, ?_, ?_, ?_, ?_, ?_⟩
  · intro m hm
    rcases vcr_classify env w request with ⟨s, m2, hs, heq⟩ | ⟨code, rb, hup, heq⟩
    · rw [heq] at hm ⊢
      simp only at hm
      cases hm
      exact ⟨rfl, hs⟩
    · rw [heq] at hm
      simp at hm
  · intro hcs
    rw [vcr_cfg_empty env w request hcs]
    rfl
  · intro m hcs hbase
    rw [vcr_cfg_invalid env w request m hcs hbase]
    rfl
  · intro base m hcs hbase hpath
    rw [vcr_path_invalid env w request base m hcs hbase hpath]
    rfl
  · intro base p hcs hbase hpath hauth
    rw [vcr_unauthorized env w request base p hcs hbase hpath hauth]
    rfl
  · intro base p m hcs hbase hpath hauth hm hup
    rw [vcr_transport_err env w request base p m hcs hbase hpath hauth hm hup]
    rfl
  · intro base p code m hcs hbase hpath hauth hm hup
    rw [vcr_read_err env w request base p code m hcs hbase hpath hauth hm hup]
    rfl
  · intro base p code respBody hcs hbase hpath hauth hm hup
    rw [vcr_success env w request base p code respBody hcs hbase hpath hauth hm hup]
    exact ⟨rfl, rfl, Iff.rfl⟩

/-- Witness for C6 at concrete inputs for the 400, 401, configuration
500, transport 500 and pass-through cases. -/
theorem response_codes_by_error_class_witness :
    (validateCloudRequest
        { cloudServer := "https://cloud.example.com",
          mattermostWebhook := "https://hooks.example.com/abc" }
        { upstreamResult := .success 200 (.ok ""), webhookResult := .success 200 (.ok "") }
        { httpMethod := "GET", path := "/api/\n" }).1.1.statusCode = 400 ∧
    (validateCloudRequest
        { cloudServer := "https://cloud.example.com",
          mattermostWebhook := "https://hooks.example.com/abc" }
        { upstreamResult := .success 200 (.ok ""), webhookResult := .success 200 (.ok "") }
        { httpMethod := "GET", path := "/api/other" }).1.1.statusCode = 401 ∧
    (validateCloudRequest
        { cloudServer := "", mattermostWebhook := "https://hooks.example.com/abc" }
        { upstreamResult := .success 200 (.ok ""), webhookResult := .success 200 (.ok "") }
        { httpMethod := "GET", path := "/api/other" }).1.1.statusCode = 500 ∧
    (validateCloudRequest
        { cloudServer := "https://cloud.example.com",
          mattermostWebhook := "https://hooks.example.com/abc" }
        { upstreamResult := .transportErr "dial tcp: timeout",
          webhookResult := .success 200 (.ok "") }
        { httpMethod := "GET", path := "/api/installation/abc" }).1.1.statusCode = 500 ∧
    ((validateCloudRequest
        { cloudServer := "https://cloud.example.com",
          mattermostWebhook := "https://hooks.example.com/abc" }
        { upstreamResult := .success 503 (.ok "\x7b\"x\":1\x7d"),
          webhookResult := .success 200 (.ok "") }
        { httpMethod := "GET", path := "/api/installation/abc" }).1.1.statusCode = 200 ↔
      (503 : Nat) = 200) ∧
    (validateCloudRequest
        { cloudServer := "https://cloud.example.com",
          mattermostWebhook := "https://hooks.example.com/abc" }
        { upstreamResult := .success 200 (.ok ""), webhookResult := .success 200 (.ok "") }
        { httpMethod := "GET", path := "/api/other" }).1.1.body =
      jsonErrorBody "/api/other is not an authorized path" := by
  refine ⟨?_, ?_, ?_, ?_, ?_, ?_⟩
  · exact (response_codes_by_error_class _ _ _).2.2.2.1
      { scheme := "https", host := "cloud.example.com" }
      (urlErrMsg "/api/\n" "net/url: invalid control character in URL")
      (by decide) (by rfl) (by rfl)
  · exact (response_codes_by_error_class _ _ _).2.2.2.2.1
      { scheme := "https", host := "cloud.example.com" } { path := "/api/other" }
      (by decide) (by rfl) (by rfl) (by decide)
  · exact (response_codes_by_error_class _ _ _).2.1 rfl
  · exact (response_codes_by_error_class _ _ _).2.2.2.2.2.1
      { scheme := "https", host := "cloud.example.com" } { path := "/api/installation/abc" }
      "dial tcp: timeout" (by decide) (by rfl) (by rfl) (by decide) (by decide) (by rfl)
  · exact ((response_codes_by_error_class _ _ _).2.2.2.2.2.2.2
      { scheme := "https", host := "cloud.example.com" } { path := "/api/installation/abc" }
      503 "\x7b\"x\":1\x7d" (by decide) (by rfl) (by rfl) (by decide) (by decide) (by rfl)).2.2
  · exact ((response_codes_by_error_class _ _ _).1
      "/api/other is not an authorized path" (by rfl)).1

/-- C8: the query parameter folding loop supports multiple values per
key: for any entry sequence, folding one further (key, value) entry
appends the value to the list already held under that key, never
overwriting it, and leaves every other key unchanged — the append
semantics of url.Values.Add. -/
theorem query_fold_appends_multivalues (params : List (String × String)) (k v : String) :
    valuesGet (foldQueryParams (params ++ [(k, v)])) k =
      valuesGet (foldQueryParams params) k ++ [v] ∧
    ∀ k2, k2 ≠ k →
      valuesGet (foldQueryParams (params ++ [(k, v)])) k2 =
        valuesGet (foldQueryParams params) k2 := by
  have hfold : foldQueryParams (params ++ [(k, v)]) = valuesAdd (foldQueryParams params) k v := by
    unfold foldQueryParams
    rw [List.foldl_append]
    rfl
  rw [hfold]
  exact ⟨valuesAdd_get_self _ k v, fun k2 hk2 => valuesAdd_get_ne _ k v k2 hk2⟩

/-- Witness for C8: a repeated key accumulates both values in order,
and a different key is untouched. -/
theorem query_fold_appends_multivalues_witness :
    valuesGet (foldQueryParams ([("a", "1")] ++ [("a", "2")])) "a" =
      valuesGet (foldQueryParams [("a", "1")]) "a" ++ ["2"] ∧
    valuesGet (foldQueryParams ([("a", "1")] ++ [("a", "2")])) "b" =
      valuesGet (foldQueryParams [("a", "1")]) "b" :=
  ⟨(query_fold_appends_multivalues [("a", "1")] "a" "2").1,
   (query_fold_appends_multivalues [("a", "1")] "a" "2").2 "b" (by decide)⟩

/-- C9 counterexample: a non-empty but unparsable upstream URL passes
the startup check of the init function (getEnv tests emptiness only),
refuting the claim that an invalid upstream URL is fatal at startup. -/
theorem startup_accepts_unparsable_upstream_url :
    (initStartup
      { cloudServer := "http://a\nb",
        mattermostWebhook := "https://hooks.example.com/abc" }).isSome = true ∧
    parseURL "http://a\nb" =
      .error (urlErrMsg "http://a\nb" "net/url: invalid control character in URL") :=
  ⟨by decide, by rfl⟩

/-- C9 as amended: startup validation checks only non-emptiness — it
succeeds exactly when both configuration variables are non-empty, an
empty one being fatal; the upstream URL's parseability is not checked
at startup, and a request-time parse failure instead produces a 500
error response for that invocation. -/
theorem startup_validates_nonemptiness_only
    (env : Env) (w : World) (request : APIGatewayProxyRequest) :
    ((initStartup env).isSome = true ↔
      (env.cloudServer ≠ "" ∧ env.mattermostWebhook ≠ "")) ∧
    (∀ m, env.cloudServer ≠ "" → parseURL env.cloudServer = .error m →
      (validateCloudRequest env w request).1.1.statusCode = 500 ∧
      (validateCloudRequest env w request).1.2 =
        some ("cloud server URL " ++ env.cloudServer ++ " is invalid: " ++ m)) := by
  constructor
  · unfold initStartup getEnv
    by_cases h1 : env.cloudServer = "" <;> by_cases h2 : env.mattermostWebhook = "" <;>
      simp [h1, h2]
  · intro m hcs hbase
    rw [vcr_cfg_invalid env w request m hcs hbase]
    exact ⟨rfl, rfl⟩

/-- Witness for C9 as amended, at a configuration whose upstream URL
contains a control character. -/
theorem startup_validates_nonemptiness_only_witness :
    (initStartup
      { cloudServer := "http://a\nb",
        mattermostWebhook := "https://hooks.example.com/abc" }).isSome = true ∧
    (validateCloudRequest
        { cloudServer := "http://a\nb",
          mattermostWebhook := "https://hooks.example.com/abc" }
        { upstreamResult := .success 200 (.ok ""), webhookResult := .success 200 (.ok "") }
        { httpMethod := "GET", path := "/api/installation/abc" }).1.1.statusCode = 500 := by
  constructor
  · exact (startup_validates_nonemptiness_only
      { cloudServer := "http://a\nb", mattermostWebhook := "https://hooks.example.com/abc" }
      { upstreamResult := .success 200 (.ok ""), webhookResult := .success 200 (.ok "") }
      { httpMethod := "GET", path := "/api/installation/abc" }).1.mpr ⟨by decide, by decide⟩
  · exact ((startup_validates_nonemptiness_only
      { cloudServer := "http://a\nb", mattermostWebhook := "https://hooks.example.com/abc" }
      { upstreamResult := .success 200 (.ok ""), webhookResult := .success 200 (.ok "") }
      { httpMethod := "GET", path := "/api/installation/abc" }).2
      (urlErrMsg "http://a\nb" "net/url: invalid control character in URL")
      (by decide) (by rfl)).1

/-- C10: every failure path returns the structured JSON error response
together with a non-nil error value whose status is 400, 401 or 500,
never a 2xx code, so on failing invocations the error is non-nil
exactly when the status is outside the 2xx range; a successful
invocation returns a nil error with the upstream status and body. -/
theorem failure_returns_error_with_response
    (env : Env) (w : World) (request : APIGatewayProxyRequest) :
    (∀ m, (validateCloudRequest env w request).1.2 = some m →
        (validateCloudRequest env w request).1.1.body = jsonErrorBody m ∧
        (validateCloudRequest env w request).1.1.statusCode ∈ ([400, 401, 500] : List Nat) ∧
        ¬ (200 ≤ (validateCloudRequest env w request).1.1.statusCode ∧
            (validateCloudRequest env w request).1.1.statusCode < 300) ∧
        ((validateCloudRequest env w request).1.2 ≠ none ↔
          ¬ (200 ≤ (validateCloudRequest env w request).1.1.statusCode ∧
              (validateCloudRequest env w request).1.1.statusCode < 300))) ∧
    ((validateCloudRequest env w request).1.2 = none →
      ∃ code respBody, w.upstreamResult = .success code (.ok respBody) ∧
        (validateCloudRequest env w request).1 =
          ({ statusCode := code, headers := [("Content-Type", "application/json")],
             body := respBody }, none)) := by
  constructor
  · intro m hm
    rcases vcr_classify env w request with ⟨s, m2, hs, heq⟩ | ⟨code, rb, hup, heq⟩
    · rw [heq] at hm ⊢
      simp only at hm
      cases hm
      have hnot2xx : ¬ (200 ≤ s ∧ s < 300) := by
        have hs2 : s = 400 ∨ s = 401 ∨ s = 500 := by simpa using hs
        rcases hs2 with h | h | h <;> subst h <;> decide
      refine ⟨rfl, hs, hnot2xx, ?_⟩
      exact iff_of_true (by simp) hnot2xx
    · rw [heq] at hm
      simp at hm
  · intro hnone
    rcases vcr_classify env w request with ⟨s, m2, hs, heq⟩ | ⟨code, rb, hup, heq⟩
    · rw [heq] at hnone
      simp at hnone
    · exact ⟨code, rb, hup, heq⟩

/-- Witness for C10 at a failing (unauthorized) input and a succeeding
pass-through input. -/
theorem failure_returns_error_with_response_witness :
    ((validateCloudRequest
        { cloudServer := "https://cloud.example.com",
          mattermostWebhook := "https://hooks.example.com/abc" }
        { upstreamResult := .success 200 (.ok ""), webhookResult := .success 200 (.ok "") }
        { httpMethod := "GET", path := "/api/other" }).1.1.body =
      jsonErrorBody "/api/other is not an authorized path" ∧
    (validateCloudRequest
        { cloudServer := "https://cloud.example.com",
          mattermostWebhook := "https://hooks.example.com/abc" }
        { upstreamResult := .success 200 (.ok ""), webhookResult := .success 200 (.ok "") }
        { httpMethod := "GET", path := "/api/other" }).1.1.statusCode ∈
      ([400, 401, 500] : List Nat)) ∧
    ∃ code respBody,
      ({ upstreamResult := .success 207 (.ok "ok"),
         webhookResult := .success 200 (.ok "") } : World).upstreamResult =
        .success code (.ok respBody) ∧
      (validateCloudRequest
          { cloudServer := "https://cloud.example.com",
            mattermostWebhook := "https://hooks.example.com/abc" }
          { upstreamResult := .success 207 (.ok "ok"),
            webhookResult := .success 200 (.ok "") }
          { httpMethod := "GET", path := "/api/installation/abc" }).1 =
        ({ statusCode := code, headers := [("Content-Type", "application/json")],
           body := respBody }, none) := by
  constructor
  · have h := (failure_returns_error_with_response
      { cloudServer := "https://cloud.example.com",
        mattermostWebhook := "https://hooks.example.com/abc" }
      { upstreamResult := .success 200 (.ok ""), webhookResult := .success 200 (.ok "") }
      { httpMethod := "GET", path := "/api/other" }).1
      "/api/other is not an authorized path" (by rfl)
    exact ⟨h.1, h.2.1⟩
  · exact (failure_returns_error_with_response
      { cloudServer := "https://cloud.example.com",
        mattermostWebhook := "https://hooks.example.com/abc" }
      { upstreamResult := .success 207 (.ok "ok"), webhookResult := .success 200 (.ok "") }
      { httpMethod := "GET", path := "/api/installation/abc" }).2 (by rfl)

theorem refactored_webhook_posts_timeout (config : Refactored.Config) (w : World)
    (request : APIGatewayProxyRequest) (errMsg : String) :
    ∀ wc ∈ (Refactored.sendToWebhook config w request errMsg).2,
      wc.timeoutSeconds = Refactored.webhookTimeoutSeconds := by
  unfold Refactored.sendToWebhook
  cases hparse : parseURL config.mattermostWebhookURL with
  | error m => simp
  | ok wu =>
    cases w.webhookResult with
    | transportErr m => simp
    | success code br =>
      by_cases h : code ≠ 200
      · simp [h]
      · simp [h]

theorem refactored_processFailedAuth_webhook_timeout (config : Refactored.Config) (w : World)
    (request : APIGatewayProxyRequest) (s : Nat) (msg : String) :
    ∀ wc ∈ (Refactored.processFailedAuth config w request s msg).2.webhookCalls,
      wc.timeoutSeconds = Refactored.webhookTimeoutSeconds := by
  intro wc hwc
  exact refactored_webhook_posts_timeout config w request msg wc hwc

/-- The outbound request of the refactored revision (no inbound header
copying, ten second client timeout). -/
def refactoredOutboundOf (request : APIGatewayProxyRequest) (final : URL) : OutboundRequest :=
  { method := methodOrGet request.httpMethod, url := final,
    headers := headerSet [] "Accept-Encoding" "",
    body := request.body, timeoutSeconds := Refactored.upstreamTimeoutSeconds }

theorem rvcr_cfg_invalid (config : Refactored.Config) (w : World)
    (request : APIGatewayProxyRequest) (m : String)
    (hbase : parseURL config.cloudServerURL = .error m) :
    Refactored.validateCloudRequest config w request =
      Refactored.processFailedAuth config w request 500
        ("cloud server URL " ++ config.cloudServerURL ++ " is invalid: " ++ m) := by
  unfold Refactored.validateCloudRequest
  rw [hbase]

theorem rvcr_path_invalid (config : Refactored.Config) (w : World)
    (request : APIGatewayProxyRequest) (base : URL) (m : String)
    (hbase : parseURL config.cloudServerURL = .ok base)
    (hpath : parseURL request.path = .error m) :
    Refactored.validateCloudRequest config w request =
      Refactored.processFailedAuth config w request 400 m := by
  unfold Refactored.validateCloudRequest
  rw [hbase, hpath]

theorem rvcr_unauthorized (config : Refactored.Config) (w : World)
    (request : APIGatewayProxyRequest) (base p : URL)
    (hbase : parseURL config.cloudServerURL = .ok base)
    (hpath : parseURL request.path = .ok p)
    (hauth : isAuthorized (resolveReference base (refWithQuery p request)) = false) :
    Refactored.validateCloudRequest config w request =
      Refactored.processFailedAuth config w request 401
        ((resolveReference base (refWithQuery p request)).escapedPath ++
          " is not an authorized path") := by
  unfold Refactored.validateCloudRequest
  rw [hbase, hpath]
  simp only [refWithQuery] at hauth
  simp only [hauth, if_pos]
  rfl

theorem rvcr_bad_method (config : Refactored.Config) (w : World)
    (request : APIGatewayProxyRequest) (base p : URL)
    (hbase : parseURL config.cloudServerURL = .ok base)
    (hpath : parseURL request.path = .ok p)
    (hauth : isAuthorized (resolveReference base (refWithQuery p request)) = true)
    (hm : newRequestMethodOk request.httpMethod = false) :
    Refactored.validateCloudRequest config w request =
      Refactored.processFailedAuth config w request 500
        ("net/http: invalid method " ++ quoteGo request.httpMethod) := by
  unfold Refactored.validateCloudRequest
  rw [hbase, hpath]
  simp only [refWithQuery] at hauth
  simp only [hauth, hm, Bool.true_eq_false, if_neg, not_false_eq_true]
  rfl

theorem rvcr_transport_err (config : Refactored.Config) (w : World)
    (request : APIGatewayProxyRequest) (base p : URL) (m : String)
    (hbase : parseURL config.cloudServerURL = .ok base)
    (hpath : parseURL request.path = .ok p)
    (hauth : isAuthorized (resolveReference base (refWithQuery p request)) = true)
    (hm : newRequestMethodOk request.httpMethod = true)
    (hup : w.upstreamResult = .transportErr m) :
    Refactored.validateCloudRequest config w request =
      ((Refactored.processFailedAuth config w request 500
          ("failed when making request to cloud server: " ++ m)).1,
       { upstreamCalls :=
           [refactoredOutboundOf request (resolveReference base (refWithQuery p request))],
         webhookCalls :=
           (Refactored.processFailedAuth config w request 500
             ("failed when making request to cloud server: " ++ m)).2.webhookCalls }) := by
  unfold Refactored.validateCloudRequest
  rw [hbase, hpath]
  simp only [refWithQuery] at hauth ⊢
  simp only [hauth, hm, hup, Bool.true_eq_false, if_neg, not_false_eq_true, refactoredOutboundOf]

theorem rvcr_read_err (config : Refactored.Config) (w : World)
    (request : APIGatewayProxyRequest) (base p : URL) (code : Nat) (m : String)
    (hbase : parseURL config.cloudServerURL = .ok base)
    (hpath : parseURL request.path = .ok p)
    (hauth : isAuthorized (resolveReference base (refWithQuery p request)) = true)
    (hm : newRequestMethodOk request.httpMethod = true)
    (hup : w.upstreamResult = .success code (.error m)) :
    Refactored.validateCloudRequest config w request =
      ((Refactored.processFailedAuth config w request 500
          ("failed to read cloud server response body: " ++ m)).1,
       { upstreamCalls :=
           [refactoredOutboundOf request (resolveReference base (refWithQuery p request))],
         webhookCalls :=
           (Refactored.processFailedAuth config w request 500
             ("failed to read cloud server response body: " ++ m)).2.webhookCalls }) := by
  unfold Refactored.validateCloudRequest
  rw [hbase, hpath]
  simp only [refWithQuery] at hauth ⊢
  simp only [hauth, hm, hup, Bool.true_eq_false, if_neg, not_false_eq_true, refactoredOutboundOf]

theorem rvcr_success (config : Refactored.Config) (w : World)
    (request : APIGatewayProxyRequest) (base p : URL) (code : Nat) (respBody : String)
    (hbase : parseURL config.cloudServerURL = .ok base)
    (hpath : parseURL request.path = .ok p)
    (hauth : isAuthorized (resolveReference base (refWithQuery p request)) = true)
    (hm : newRequestMethodOk request.httpMethod = true)
    (hup : w.upstreamResult = .success code (.ok respBody)) :
    Refactored.validateCloudRequest config w request =
      (({ statusCode := code, headers := [("Content-Type", "application/json")],
          body := respBody }, none),
       { upstreamCalls :=
           [refactoredOutboundOf request (resolveReference base (refWithQuery p request))],
         webhookCalls := [] }) := by
  unfold Refactored.validateCloudRequest
  rw [hbase, hpath]
  simp only [refWithQuery] at hauth ⊢
  simp only [hauth, hm, hup, Bool.true_eq_false, if_neg, not_false_eq_true, refactoredOutboundOf]

theorem refactored_pf_timeouts (config : Refactored.Config) (w : World)
    (request : APIGatewayProxyRequest) (s : Nat) (msg : String) :
    (∀ r ∈ (Refactored.processFailedAuth config w request s msg).2.upstreamCalls,
        r.timeoutSeconds = Refactored.upstreamTimeoutSeconds ∧ 0 < r.timeoutSeconds) ∧
    (∀ wc ∈ (Refactored.processFailedAuth config w request s msg).2.webhookCalls,
        wc.timeoutSeconds = Refactored.webhookTimeoutSeconds ∧
        wc.timeoutSeconds < Refactored.upstreamTimeoutSeconds) := by
  constructor
  · intro r hr
    simp [Refactored.processFailedAuth] at hr
  · intro wc hwc
    have h5 := refactored_processFailedAuth_webhook_timeout config w request s msg wc hwc
    exact ⟨h5, by rw [h5]; decide⟩

/-- C7: in the revision carrying the client timeouts, every outbound
upstream call is issued by a client holding the fixed ten second
timeout — nonzero, on the order of seconds — and every failure
notification webhook post by a client holding the fixed five second
timeout, strictly shorter than the upstream one. -/
theorem refactored_client_timeouts (config : Refactored.Config) (w : World)
    (request : APIGatewayProxyRequest) :
    (∀ r ∈ (Refactored.validateCloudRequest config w request).2.upstreamCalls,
        r.timeoutSeconds = Refactored.upstreamTimeoutSeconds ∧ 0 < r.timeoutSeconds) ∧
    (∀ wc ∈ (Refactored.validateCloudRequest config w request).2.webhookCalls,
        wc.timeoutSeconds = Refactored.webhookTimeoutSeconds ∧
        wc.timeoutSeconds < Refactored.upstreamTimeoutSeconds) := by
  cases hbase : parseURL config.cloudServerURL with
  | error m =>
    rw [rvcr_cfg_invalid config w request m hbase]
    exact refactored_pf_timeouts config w request 500 _
  | ok base =>
    cases hpath : parseURL request.path with
    | error m =>
      rw [rvcr_path_invalid config w request base m hbase hpath]
      exact refactored_pf_timeouts config w request 400 _
    | ok p =>
      cases hauth : isAuthorized (resolveReference base (refWithQuery p request)) with
      | false =>
        rw [rvcr_unauthorized config w request base p hbase hpath hauth]
        exact refactored_pf_timeouts config w request 401 _
      | true =>
        cases hm : newRequestMethodOk request.httpMethod with
        | false =>
          rw [rvcr_bad_method config w request base p hbase hpath hauth hm]
          exact refactored_pf_timeouts config w request 500 _
        | true =>
          cases hup : w.upstreamResult with
          | transportErr m =>
            rw [rvcr_transport_err config w request base p m hbase hpath hauth hm hup]
            constructor
            · intro r hr
              have hr2 : r =
                  refactoredOutboundOf request (resolveReference base (refWithQuery p request)) := by
                simpa using hr
              subst hr2
              exact ⟨rfl, by show (0 : Nat) < Refactored.upstreamTimeoutSeconds; decide⟩
            · intro wc hwc
              have h5 := refactored_processFailedAuth_webhook_timeout config w request 500 _ wc hwc
              exact ⟨h5, by rw [h5]; decide⟩
          | success code br =>
            cases br with
            | error m =>
              rw [rvcr_read_err config w request base p code m hbase hpath hauth hm hup]
              constructor
              · intro r hr
                have hr2 : r =
                    refactoredOutboundOf request (resolveReference base (refWithQuery p request)) := by
                  simpa using hr
                subst hr2
                exact ⟨rfl, by show (0 : Nat) < Refactored.upstreamTimeoutSeconds; decide⟩
              · intro wc hwc
                have h5 := refactored_processFailedAuth_webhook_timeout config w request 500 _ wc hwc
                exact ⟨h5, by rw [h5]; decide⟩
            | ok respBody =>
              rw [rvcr_success config w request base p code respBody hbase hpath hauth hm hup]
              constructor
              · intro r hr
                have hr2 : r =
                    refactoredOutboundOf request (resolveReference base (refWithQuery p request)) := by
                  simpa using hr
                subst hr2
                exact ⟨rfl, by show (0 : Nat) < Refactored.upstreamTimeoutSeconds; decide⟩
              · intro wc hwc
                simp at hwc

/-- Witness for C7 at a concrete unauthorized request (webhook post
issued) and a concrete authorized pass-through (upstream call made). -/
theorem refactored_client_timeouts_witness :
    (∀ r ∈ (Refactored.validateCloudRequest
        { cloudServerURL := "https://cloud.example.com",
          mattermostWebhookURL := "https://hooks.example.com/abc" }
        { upstreamResult := .success 200 (.ok ""), webhookResult := .success 200 (.ok "") }
        { httpMethod := "GET", path := "/api/installation/abc" }).2.upstreamCalls,
        r.timeoutSeconds = Refactored.upstreamTimeoutSeconds ∧ 0 < r.timeoutSeconds) ∧
    (∀ wc ∈ (Refactored.validateCloudRequest
        { cloudServerURL := "https://cloud.example.com",
          mattermostWebhookURL := "https://hooks.example.com/abc" }
        { upstreamResult := .success 200 (.ok ""), webhookResult := .success 200 (.ok "") }
        { httpMethod := "GET", path := "/api/other" }).2.webhookCalls,
        wc.timeoutSeconds = Refactored.webhookTimeoutSeconds ∧
        wc.timeoutSeconds < Refactored.upstreamTimeoutSeconds) :=
  ⟨(refactored_client_timeouts
      { cloudServerURL := "https://cloud.example.com",
        mattermostWebhookURL := "https://hooks.example.com/abc" }
      { upstreamResult := .success 200 (.ok ""), webhookResult := .success 200 (.ok "") }
      { httpMethod := "GET", path := "/api/installation/abc" }).1,
   (refactored_client_timeouts
      { cloudServerURL := "https://cloud.example.com",
        mattermostWebhookURL := "https://hooks.example.com/abc" }
      { upstreamResult := .success 200 (.ok ""), webhookResult := .success 200 (.ok "") }
      { httpMethod := "GET", path := "/api/other" }).2⟩

/-- C5 counterexample, on the current (refactored) revision: the
outbound request is built by http.NewRequest alone — the inbound
multi-value headers (here an X-Foo header) are NOT copied onto it, and
its header map holds only the Accept-Encoding key, which Header.Set
stores as the single empty value rather than removing it; this refutes
both the header-copy conjunct and the reading that the outbound
request never carries an Accept-Encoding header. -/
theorem refactored_outbound_headers_not_copied :
    ((Refactored.validateCloudRequest
        { cloudServerURL := "https://cloud.example.com",
          mattermostWebhookURL := "https://hooks.example.com/abc" }
        { upstreamResult := .success 200 (.ok ""), webhookResult := .success 200 (.ok "") }
        { httpMethod := "GET", path := "/api/installation/abc",
          multiValueHeaders := some [("X-Foo", ["bar"]), ("Accept-Encoding", ["gzip"])] }
        ).2.upstreamCalls.map (fun r => r.headers)) = [[("Accept-Encoding", [""])]] ∧
    ¬ (∀ r ∈ (Refactored.validateCloudRequest
        { cloudServerURL := "https://cloud.example.com",
          mattermostWebhookURL := "https://hooks.example.com/abc" }
        { upstreamResult := .success 200 (.ok ""), webhookResult := .success 200 (.ok "") }
        { httpMethod := "GET", path := "/api/installation/abc",
          multiValueHeaders := some [("X-Foo", ["bar"]), ("Accept-Encoding", ["gzip"])] }
        ).2.upstreamCalls,
        r.headers.lookup "X-Foo" = some ["bar"]) ∧
    ¬ (∀ r ∈ (Refactored.validateCloudRequest
        { cloudServerURL := "https://cloud.example.com",
          mattermostWebhookURL := "https://hooks.example.com/abc" }
        { upstreamResult := .success 200 (.ok ""), webhookResult := .success 200 (.ok "") }
        { httpMethod := "GET", path := "/api/installation/abc",
          multiValueHeaders := some [("X-Foo", ["bar"]), ("Accept-Encoding", ["gzip"])] }
        ).2.upstreamCalls,
        r.headers.lookup "Accept-Encoding" = none) :=
  ⟨by decide, by decide, by decide⟩

/-- C5 as amended, on the current (refactored) revision: for every
authorized request that reaches the upstream call (nonempty valid
method), the one outbound upstream request carries exactly the inbound
method and body; the inbound multi-value headers are not copied onto
it — its header map holds only the Accept-Encoding key, explicitly set
before sending to the single empty value (cleared, not removed). -/
theorem refactored_outbound_method_body_headers
    (config : Refactored.Config) (w : World) (request : APIGatewayProxyRequest)
    (base p : URL)
    (hbase : parseURL config.cloudServerURL = .ok base)
    (hpath : parseURL request.path = .ok p)
    (hauth : isAuthorized (resolveReference base (refWithQuery p request)) = true)
    (hm : newRequestMethodOk request.httpMethod = true)
    (hmeth : request.httpMethod ≠ "") :
    ∀ r ∈ (Refactored.validateCloudRequest config w request).2.upstreamCalls,
      r.method = request.httpMethod ∧ r.body = request.body ∧
      r.headers = [("Accept-Encoding", [""])] := by
  intro r hr
  have hshape : (Refactored.validateCloudRequest config w request).2.upstreamCalls =
      [refactoredOutboundOf request (resolveReference base (refWithQuery p request))] := by
    cases hup : w.upstreamResult with
    | transportErr m =>
      rw [rvcr_transport_err config w request base p m hbase hpath hauth hm hup]
    | success code br =>
      cases br with
      | error m =>
        rw [rvcr_read_err config w request base p code m hbase hpath hauth hm hup]
      | ok respBody =>
        rw [rvcr_success config w request base p code respBody hbase hpath hauth hm hup]
  rw [hshape] at hr
  have hr2 : r = refactoredOutboundOf request (resolveReference base (refWithQuery p request)) := by
    simpa using hr
  subst hr2
  refine ⟨?_, rfl, ?_⟩
  · show methodOrGet request.httpMethod = request.httpMethod
    simp [methodOrGet, hmeth]
  · rfl

/-- Witness for C5 as amended, at a POST carrying an inbound header
that does not reach the outbound request. -/
theorem refactored_outbound_method_body_headers_witness :
    ({ method := "POST",
       url := { scheme := "https", host := "cloud.example.com",
                path := "/api/installation/abc" },
       headers := [("Accept-Encoding", [""])],
       body := "b", timeoutSeconds := 10 } : OutboundRequest).method = "POST" ∧
    ({ method := "POST",
       url := { scheme := "https", host := "cloud.example.com",
                path := "/api/installation/abc" },
       headers := [("Accept-Encoding", [""])],
       body := "b", timeoutSeconds := 10 } : OutboundRequest).body = "b" ∧
    ({ method := "POST",
       url := { scheme := "https", host := "cloud.example.com",
                path := "/api/installation/abc" },
       headers := [("Accept-Encoding", [""])],
       body := "b", timeoutSeconds := 10 } : OutboundRequest).headers =
      [("Accept-Encoding", [""])] := by
  have h := refactored_outbound_method_body_headers
    { cloudServerURL := "https://cloud.example.com",
      mattermostWebhookURL := "https://hooks.example.com/abc" }
    { upstreamResult := .success 200 (.ok ""), webhookResult := .success 200 (.ok "") }
    { httpMethod := "POST", path := "/api/installation/abc",
      multiValueHeaders := some [("X-Foo", ["bar"])], body := "b" }
    { scheme := "https", host := "cloud.example.com" }
    { path := "/api/installation/abc" }
    (by rfl) (by rfl) (by decide) (by decide) (by decide)
    { method := "POST",
      url := { scheme := "https", host := "cloud.example.com",
               path := "/api/installation/abc" },
      headers := [("Accept-Encoding", [""])],
      body := "b", timeoutSeconds := 10 }
    (by decide)
  exact ⟨h.1, h.2.1, h.2.2⟩

end CloudServerAuth